import Mathlib

/-!
# Verification of the ML continuous-learning core (CURSOR-SMC-MAIN)

Shallow embedding of the machine-learning feedback loop of the repository:
`src/ml/prediction_tracker.py`, `src/ml/continuous_learner.py`,
`src/ml/model_manager.py` and `src/ml/feature_engineering.py`.

Conventions of the embedding:
* Python `datetime` values are rationals counting hours since an arbitrary
  epoch; `timedelta.total_seconds() / 3600` therefore becomes plain
  subtraction, and `timedelta.days` becomes `⌊Δhours / 24⌋`.
* Python floats are modelled as `ℚ`.
* The sentiment strings `'BULLISH' / 'BEARISH' / 'NEUTRAL'` are modelled by
  the inductive type `Sentiment`.
* The database layer (`src/database/repository.py`, absent from the sources;
  only its interface is visible) is modelled from the spec as an in-memory
  list of `Prediction` rows; stateful calls pass the repository explicitly.
* Fallible Python code (`raise` / `try` / `except`) is modelled with
  `Except String`.
-/

set_option linter.unusedVariables false

namespace CursorSMC

/-- Predicted / realized market direction (`'BULLISH' | 'BEARISH' | 'NEUTRAL'`
strings in the Python sources). -/
inductive Sentiment where
  | BULLISH
  | BEARISH
  | NEUTRAL
  deriving DecidableEq, Repr

/-- One row of the `predictions` table (`src/database/models.py` is absent from
the sources; fields are those read and written by `PredictionTracker`).
`timestamp` and `verifiedAt` are hours since the epoch. -/
structure Prediction where
  id : Nat
  symbolName : String
  timeframe : String
  sentiment : Sentiment
  confidence : ℚ
  priceAtPrediction : ℚ
  timestamp : ℚ
  isVerified : Bool
  actualOutcome : Option Sentiment
  wasCorrect : Bool
  priceAtVerification : Option ℚ
  verifiedAt : Option ℚ
  deriving DecidableEq, Repr

/-- Modelled from the spec: "a persistence provider exposing
`create_prediction(...)`, `get_predictions(filter) → sequence`,
`verify_prediction(id, outcome, correctness, price)`"
(`src/database/repository.py` is not among the sources).  The repository is an
in-memory sequence of `Prediction` rows. -/
structure DatabaseRepository where
  predictions : List Prediction
  deriving DecidableEq, Repr

namespace DatabaseRepository

/-- Modelled from the spec: `get_predictions(filter) → sequence`.  Keyword
filters used by the tracker: `symbol_name`, `is_verified`, `limit`. -/
def get_predictions (repo : DatabaseRepository) (symbolName : Option String)
    (isVerified : Option Bool) (limit : Nat) : List Prediction :=
  ((repo.predictions.filter fun p =>
      (match symbolName with
       | none => true
       | some s => p.symbolName == s) &&
      (match isVerified with
       | none => true
       | some b => p.isVerified == b))).take limit

/-- Modelled from the spec: `verify_prediction(id, outcome, correctness,
price)` marks the row as verified, recording realized outcome, correctness and
verification price ("the Prediction transitions to `verified` exactly once,
recording realized outcome, correctness, and verification price"). -/
def verify_prediction (repo : DatabaseRepository) (predictionId : Nat)
    (actualOutcome : Sentiment) (wasCorrect : Bool)
    (priceAtVerification : ℚ) (now : ℚ) : DatabaseRepository :=
  ⟨repo.predictions.map fun p =>
    if p.id = predictionId then
      { p with isVerified := true
               actualOutcome := some actualOutcome
               wasCorrect := wasCorrect
               priceAtVerification := some priceAtVerification
               verifiedAt := some now }
    else p⟩

end DatabaseRepository

/-! ## `PredictionTracker` (src/ml/prediction_tracker.py) -/

namespace PredictionTracker

/-- `PredictionTracker._get_verification_window` (prediction_tracker.py
lines 337-358): hours to wait before verification, keyed by timeframe,
defaulting to 4 hours. -/
def get_verification_window (timeframe : String) : ℚ :=
  if timeframe = "M1" then 1/4
  else if timeframe = "M5" then 1/2
  else if timeframe = "M15" then 1
  else if timeframe = "M30" then 2
  else if timeframe = "H1" then 4
  else if timeframe = "H4" then 12
  else if timeframe = "D1" then 24
  else if timeframe = "W1" then 168
  else 4

/-- `PredictionTracker._determine_outcome` (prediction_tracker.py
lines 360-378): classify a percentage price change with the hardcoded
threshold `0.05` (%). -/
def determine_outcome (priceChangePct : ℚ) : Sentiment :=
  let threshold : ℚ := 5/100
  if priceChangePct > threshold then .BULLISH
  else if priceChangePct < -threshold then .BEARISH
  else .NEUTRAL

/-- prediction_tracker.py lines 126-127: realized percentage price change,
`(current_price - price_at_prediction) / price_at_prediction * 100`. -/
def price_change_pct (currentPrice priceAtPrediction : ℚ) : ℚ :=
  (currentPrice - priceAtPrediction) / priceAtPrediction * 100

/-- prediction_tracker.py lines 125-131: the actual outcome and correctness
flag computed for one eligible prediction —
`actual_outcome = self._determine_outcome(price_change_pct)` and
`was_correct = (actual_outcome == pred.sentiment)`. -/
def classify_prediction (pred : Prediction) (currentPrice : ℚ) :
    Sentiment × Bool :=
  let priceChangePct := price_change_pct currentPrice pred.priceAtPrediction
  let actualOutcome := determine_outcome priceChangePct
  (actualOutcome, decide (actualOutcome = pred.sentiment))

/-- The body of the `for pred in predictions` loop of
`PredictionTracker.verify_predictions` (prediction_tracker.py lines 115-147):
predictions younger than their timeframe window are skipped; eligible ones are
classified against the current price and marked verified in the repository. -/
def verifyLoop (now currentPrice : ℚ) :
    List Prediction → DatabaseRepository → Nat → DatabaseRepository × Nat
  | [], repo, verifiedCount => (repo, verifiedCount)
  | pred :: rest, repo, verifiedCount =>
    let predictionAge := now - pred.timestamp
    let verificationHours := get_verification_window pred.timeframe
    if predictionAge < verificationHours then
      -- Not old enough yet
      verifyLoop now currentPrice rest repo verifiedCount
    else
      let oc := classify_prediction pred currentPrice
      verifyLoop now currentPrice rest
        (repo.verify_prediction pred.id oc.1 oc.2 currentPrice now)
        (verifiedCount + 1)

/-- Python `datetime.min` (0001-01-01 00:00) in hours since the 1970 epoch:
`(1 - 719163) · 24`. -/
def datetimeMinHours : ℚ := -17259888

/-- One microsecond past Python `datetime.max`
(9999-12-31 23:59:59.999999), i.e. 10000-01-01 00:00, in hours since the
epoch: a datetime is representable iff it is at least `datetimeMinHours` and
strictly below this bound (exact at the microsecond resolution of
`datetime`). -/
def datetimeSupHours : ℚ := 70389528

/-- Python `timedelta.min` (−999999999 days) in hours. -/
def timedeltaMinHours : ℚ := -23999999976

/-- One microsecond past Python `timedelta.max`
(999999999 days 23:59:59.999999), i.e. 1000000000 days, in hours. -/
def timedeltaSupHours : ℚ := 24000000000

/-- The dead `cutoff_time` expression at prediction_tracker.py:104,
`datetime.now() - timedelta(hours=lookback_hours)`, evaluates without raising
`OverflowError` iff the `timedelta` itself is in range and the resulting
datetime is representable. -/
def cutoff_in_range (lookbackHours now : ℚ) : Prop :=
  timedeltaMinHours ≤ lookbackHours ∧ lookbackHours < timedeltaSupHours ∧
  datetimeMinHours ≤ now - lookbackHours ∧ now - lookbackHours < datetimeSupHours

instance (lookbackHours now : ℚ) : Decidable (cutoff_in_range lookbackHours now) :=
  inferInstanceAs (Decidable (timedeltaMinHours ≤ lookbackHours ∧
    lookbackHours < timedeltaSupHours ∧
    datetimeMinHours ≤ now - lookbackHours ∧
    now - lookbackHours < datetimeSupHours))

/-- `PredictionTracker.verify_predictions` (prediction_tracker.py
lines 82-159).  Returns the updated repository together with the number of
predictions verified.  The `cutoff_time` value computed at line 104 is never
read afterwards, but the expression itself raises `OverflowError` when the
subtraction leaves the representable `datetime`/`timedelta` range; the
`except` handler at lines 157-159 then logs and returns `0` with no
prediction examined (the repository untouched). -/
def verify_predictions (repository : Option DatabaseRepository)
    (symbol : String) (currentPrice : ℚ) (lookbackHours : ℚ) (now : ℚ) :
    Option DatabaseRepository × Nat :=
  match repository with
  | none => (none, 0)
  | some repo =>
    if cutoff_in_range lookbackHours now then
      let predictions := repo.get_predictions (some symbol) (some false) 100
      let result := verifyLoop now currentPrice predictions repo 0
      (some result.1, result.2)
    else
      (some repo, 0)

/-- Per-sentiment slice of an accuracy report (`by_sentiment` entries of
`get_recent_accuracy`). -/
structure SentimentStats where
  total : Nat
  correct : Nat
  accuracy : ℚ
  deriving DecidableEq, Repr

/-- The dictionary returned by `PredictionTracker.get_recent_accuracy`.  The
degenerate return paths of the Python code (no repository / no recent rows)
populate a dict with fewer keys; the unread keys are zero-valued here. -/
structure AccuracyStats where
  total : Nat
  correct : Nat
  incorrect : Nat
  accuracy : ℚ
  bySentiment : List (Sentiment × SentimentStats)
  periodDays : Nat
  deriving DecidableEq, Repr

/-- `PredictionTracker.get_recent_accuracy` (prediction_tracker.py
lines 161-230): verified predictions of the last `days` days, aggregated into
total / correct / incorrect / accuracy and a per-sentiment breakdown. -/
def get_recent_accuracy (repository : Option DatabaseRepository)
    (now : ℚ) (symbol : Option String) (days : Nat) : AccuracyStats :=
  match repository with
  | none => ⟨0, 0, 0, 0, [], 0⟩
  | some repo =>
    let since := now - (days : ℚ) * 24
    let predictions := repo.get_predictions symbol (some true) 1000
    let recentPreds := predictions.filter fun p =>
      match p.verifiedAt with
      | none => false
      | some t => t ≥ since
    if recentPreds.isEmpty then ⟨0, 0, 0, 0, [], 0⟩
    else
      let total := recentPreds.length
      let correct := (recentPreds.filter fun p => p.wasCorrect).length
      let incorrect := total - correct
      let accuracy : ℚ := if total > 0 then (correct : ℚ) / (total : ℚ) else 0
      let bySentiment :=
        ([Sentiment.BULLISH, Sentiment.BEARISH, Sentiment.NEUTRAL].filterMap
          fun s =>
            let sentPreds := recentPreds.filter fun p => p.sentiment = s
            if sentPreds.isEmpty then none
            else
              let sentCorrect := (sentPreds.filter fun p => p.wasCorrect).length
              some (s, ⟨sentPreds.length, sentCorrect,
                        (sentCorrect : ℚ) / (sentPreds.length : ℚ)⟩))
      ⟨total, correct, incorrect, accuracy, bySentiment, days⟩

/-- `PredictionTracker._get_unverified_count` (prediction_tracker.py
lines 380-392). -/
def get_unverified_count (repository : Option DatabaseRepository) : Nat :=
  match repository with
  | none => 0
  | some repo => (repo.get_predictions none (some false) 10000).length

/-- The reason strings appended by `needs_retraining` and
`ContinuousLearner.should_retrain`, with the interpolated values as
payloads. -/
inductive RetrainReason where
  | notEnoughPredictions (total minPredictions : Nat)
  | accuracyBelowThreshold (accuracy minAccuracy : ℚ)
  | newPredictionsAvailable (unverifiedCount : Nat)
  | lastTrainingDaysAgo (days : ℤ)
  deriving DecidableEq, Repr

/-- The dictionary returned by `PredictionTracker.needs_retraining`. -/
structure RetrainCheck where
  needsRetraining : Bool
  reasons : List RetrainReason
  currentAccuracy : ℚ
  totalPredictions : Nat
  unverifiedPredictions : Nat
  deriving DecidableEq, Repr

/-- `PredictionTracker.needs_retraining` (prediction_tracker.py
lines 232-278): insufficient-evidence guard, accuracy check, and the
independent data-drift check against the hardcoded threshold of 200
unverified predictions. -/
def needs_retraining (repository : Option DatabaseRepository) (now : ℚ)
    (minAccuracy : ℚ) (minPredictions : Nat) (checkDays : Nat) :
    RetrainCheck :=
  let accuracyStats := get_recent_accuracy repository now none checkDays
  let base : Bool × List RetrainReason :=
    if accuracyStats.total < minPredictions then
      (false, [.notEnoughPredictions accuracyStats.total minPredictions])
    else if accuracyStats.accuracy < minAccuracy then
      (true, [.accuracyBelowThreshold accuracyStats.accuracy minAccuracy])
    else
      (false, [])
  let unverifiedCount := get_unverified_count repository
  let final : Bool × List RetrainReason :=
    if unverifiedCount > 200 then
      (true, base.2 ++ [.newPredictionsAvailable unverifiedCount])
    else base
  { needsRetraining := final.1
    reasons := final.2
    currentAccuracy := accuracyStats.accuracy
    totalPredictions := accuracyStats.total
    unverifiedPredictions := unverifiedCount }

end PredictionTracker

/-! ## `ModelManager` (src/ml/model_manager.py)

The trained model and scaler are opaque `joblib` blobs wrapping scikit-learn
estimators; only their callable interface (`predict`, `predict_proba`,
`transform`) is visible to the code under verification, so they are modelled
as records of functions over raw feature matrices. -/

/-- An sklearn-style classifier blob: `predict` returns encoded class labels,
`predict_proba` per-class probabilities. -/
structure MLModel where
  predictLabels : List (List ℚ) → List ℚ
  predictProba : List (List ℚ) → List (List ℚ)

/-- An sklearn-style fitted scaler blob. -/
structure Scaler where
  transform : List (List ℚ) → List (List ℚ)

/-- The on-disk `models/` directory.  A version `v` has a model blob iff
`v ∈ modelVersions` (file `model_v.joblib`), a scaler blob iff
`v ∈ scalerVersions` (`scaler_v.joblib`) and a metadata sidecar iff
`v ∈ metadataVersions` (`metadata_v.json`).  `trainingDate` is the parseable
`training_date` metadata field, `metaTestAccuracy` the `test_accuracy`
metadata field (`.get(_, 0)` default), and `mtime` the model-file modification
time, all as association lists keyed by version. -/
structure ModelsDir where
  modelVersions : List String
  scalerVersions : List String
  metadataVersions : List String
  trainingDate : List (String × ℚ)
  metaTestAccuracy : List (String × ℚ)
  mtime : List (String × ℚ)
  modelBlob : String → MLModel
  scalerBlob : String → Scaler

/-- Insert into a descending-sorted list (helper for `sorted(_, reverse=True)`). -/
def insertDesc (s : String) : List String → List String
  | [] => [s]
  | t :: ts => if t ≤ s then s :: t :: ts else t :: insertDesc s ts

/-- `sorted(versions, reverse=True)`. -/
def sortDesc : List String → List String
  | [] => []
  | s :: ss => insertDesc s (sortDesc ss)

namespace ModelManager

/-- The `ModelManager` instance state: the artifact directory plus the active
slot.  In the source the slot is the attribute pair
`self.active_model` / `self.active_scaler`; the two are only ever assigned
together (both in `__init__` and in `load_model`), so they are modelled as a
single optional pair. -/
structure State where
  dir : ModelsDir
  active : Option (MLModel × Scaler)

/-- `ModelManager.list_models` (model_manager.py lines 191-195): versions with
a `model_*.joblib` blob, newest-first. -/
def list_models (dir : ModelsDir) : List String :=
  sortDesc dir.modelVersions

/-- `ModelManager.load_model` (model_manager.py lines 129-147): checks that the
model blob and the scaler blob exist, then loads both into the active slot;
returns `false` (leaving the state unchanged) when either file is missing.
The metadata sidecar is not consulted. -/
def load_model (st : State) (version : String) : State × Bool :=
  if version ∈ st.dir.modelVersions ∧ version ∈ st.dir.scalerVersions then
    ({ st with active := some (st.dir.modelBlob version, st.dir.scalerBlob version) },
     true)
  else
    (st, false)

/-- Result of `ModelManager.predict`: class labels, or per-class
probabilities when `return_proba` is set. -/
inductive PredictOutput where
  | labels (ys : List ℚ)
  | probs (ps : List (List ℚ))

/-- `ModelManager.predict` (model_manager.py lines 149-159): raises
`ValueError("No active model loaded")` when nothing is loaded, otherwise
scales the features and dispatches on `return_proba`. -/
def predict (st : State) (X : List (List ℚ)) (returnProba : Bool) :
    Except String PredictOutput :=
  match st.active with
  | none => .error "No active model loaded"
  | some (activeModel, activeScaler) =>
    let XScaled := activeScaler.transform X
    if returnProba then
      .ok (.probs (activeModel.predictProba XScaled))
    else
      .ok (.labels (activeModel.predictLabels XScaled))

end ModelManager

/-! ## `ContinuousLearner` (src/ml/continuous_learner.py) -/

namespace ContinuousLearner

open PredictionTracker

/-- Association-list lookup helper for `ModelsDir` metadata fields. -/
def lookupField (l : List (String × ℚ)) (k : String) : Option ℚ :=
  (l.find? fun kv => kv.1 == k).map Prod.snd

/-- `ContinuousLearner._get_last_training_time` (continuous_learner.py
lines 202-235): the `training_date` metadata field of the newest model
version, falling back to the model file's modification time, `none` when no
model exists. -/
def get_last_training_time (dir : ModelsDir) : Option ℚ :=
  match ModelManager.list_models dir with
  | [] => none
  | latestVersion :: _ =>
    let fromMeta :=
      if latestVersion ∈ dir.metadataVersions then
        lookupField dir.trainingDate latestVersion
      else none
    match fromMeta with
    | some t => some t
    | none =>
      -- Fallback to file modification time
      if latestVersion ∈ dir.modelVersions then
        lookupField dir.mtime latestVersion
      else none

/-- The dictionary returned by `ContinuousLearner.should_retrain`. -/
structure ShouldRetrainResult where
  shouldRetrain : Bool
  reasons : List RetrainReason
  currentAccuracy : ℚ
  daysSinceTraining : ℤ
  newPredictions : Nat
  deriving DecidableEq, Repr

/-- `ContinuousLearner.should_retrain` (continuous_learner.py lines 36-72).
`minConfidence` stands for `MLConfig.MIN_CONFIDENCE` (`config/settings.py` is
not among the sources, so the configuration constant is a parameter). -/
def should_retrain (repository : Option DatabaseRepository) (dir : ModelsDir)
    (now : ℚ) (minConfidence : ℚ) : ShouldRetrainResult :=
  let trackerCheck := needs_retraining repository now minConfidence 100 7
  let lastTrainingTime := get_last_training_time dir
  let daysSinceTraining : ℤ :=
    match lastTrainingTime with
    | some t => ⌊(now - t) / 24⌋
    | none => 999
  let step1 : Bool × List RetrainReason :=
    if daysSinceTraining ≥ 1 then
      (true, trackerCheck.reasons ++ [.lastTrainingDaysAgo daysSinceTraining])
    else
      (false, trackerCheck.reasons)
  let shouldRetrainFlag := if trackerCheck.needsRetraining then true else step1.1
  { shouldRetrain := shouldRetrainFlag
    reasons := step1.2
    currentAccuracy := trackerCheck.currentAccuracy
    daysSinceTraining := daysSinceTraining
    newPredictions := trackerCheck.unverifiedPredictions }

end ContinuousLearner

/-! ## `FeatureEngineer` (src/ml/feature_engineering.py)

A pandas DataFrame with a DatetimeIndex is modelled as a list of rows, each
carrying its index timestamp (in hours since the epoch, 1970-01-01 00:00,
a Thursday), the OHLCV columns (always defined), and the feature columns
appended by the pipeline, where `none` models `NaN`.  Appending a column to
the frame is `zipWith` over rows and cells, like pandas' index-aligned
assignment. -/

namespace FeatureEngineering

/-- One DataFrame row: timestamp, `Open/High/Low/Close/Volume`, and the
feature cells appended so far (`none` = `NaN`). -/
structure FRow where
  time : Nat
  op : ℚ
  hi : ℚ
  lo : ℚ
  cl : ℚ
  vol : ℚ
  feats : List (Option ℚ)
  deriving DecidableEq, Repr

/-- A DataFrame: ordered rows. -/
structure Frame where
  rows : List FRow
  deriving DecidableEq, Repr

/-- `df.index.hour` for a timestamp in hours since the epoch. -/
def hourOf (t : Nat) : Nat := t % 24

/-- `df.index.dayofweek` (pandas: Monday = 0; the epoch day was a Thursday). -/
def dayOfWeekOf (t : Nat) : Nat := (t / 24 + 3) % 7

/-- `df['name'] = col`: append one cell of `col` to each row. -/
def addCol (f : Frame) (col : List (Option ℚ)) : Frame :=
  ⟨List.zipWith (fun r c => { r with feats := r.feats ++ [c] }) f.rows col⟩

/-- Append a column computed row-wise from always-defined fields. -/
def addRowCol (f : Frame) (g : FRow → ℚ) : Frame :=
  addCol f (f.rows.map fun r => some (g r))

/-- `series.pct_change(periods=k)`: `(x_i - x_(i-k)) / x_(i-k)`, `NaN` for the
first `k` positions. -/
def pctChange (k : Nat) (xs : List ℚ) : List (Option ℚ) :=
  (List.range xs.length).map fun i =>
    if i < k then none
    else match xs[i]?, xs[i - k]? with
      | some cur, some prev => some ((cur - prev) / prev)
      | _, _ => none

/-- `series.rolling(n).mean()`: `NaN` until a full window is available. -/
def rollingMean (n : Nat) (xs : List ℚ) : List (Option ℚ) :=
  (List.range xs.length).map fun i =>
    if i + 1 < n then none
    else some (((xs.take (i + 1)).drop (i + 1 - n)).sum / (n : ℚ))

/-- `series.rolling(n).apply(lambda x: (x == x.max()).sum())`. -/
def rollingCountMax (n : Nat) (xs : List ℚ) : List (Option ℚ) :=
  (List.range xs.length).map fun i =>
    if i + 1 < n then none
    else
      let window := (xs.take (i + 1)).drop (i + 1 - n)
      match window with
      | [] => none
      | w :: ws =>
        let m := ws.foldl max w
        some ((window.filter fun x => x = m).length : ℚ)

/-- `series.rolling(n).apply(lambda x: (x == x.min()).sum())`. -/
def rollingCountMin (n : Nat) (xs : List ℚ) : List (Option ℚ) :=
  (List.range xs.length).map fun i =>
    if i + 1 < n then none
    else
      let window := (xs.take (i + 1)).drop (i + 1 - n)
      match window with
      | [] => none
      | w :: ws =>
        let m := ws.foldl min w
        some ((window.filter fun x => x = m).length : ℚ)

/-- Modelled from the spec: the technical-indicator library
(`src/indicators/technical.py` is not among the sources; §4.1 lists the
indicator set and allows "a sub-indicator computation" to raise).  Each
indicator maps the frame to a column (or tuple of columns) aligned to the
rows, or raises.  `calculate_macd` yields `(macd, signal, histogram)`,
`calculate_adx` yields `(adx, plus_di, minus_di)`,
`calculate_bollinger_bands` yields `(upper, middle, lower)`. -/
structure TechnicalIndicators where
  calculate_rsi : Frame → Except String (List (Option ℚ))
  calculate_macd :
    Frame → Except String (List (Option ℚ) × List (Option ℚ) × List (Option ℚ))
  calculate_adx :
    Frame → Except String (List (Option ℚ) × List (Option ℚ) × List (Option ℚ))
  calculate_bollinger_bands :
    Frame → Except String (List (Option ℚ) × List (Option ℚ) × List (Option ℚ))
  calculate_atr : Frame → Except String (List (Option ℚ))
  calculate_ema : Frame → Nat → Except String (List (Option ℚ))
  calculate_sma : Frame → Nat → Except String (List (Option ℚ))
  calculate_obv : Frame → Except String (List (Option ℚ))
  calculate_mfi : Frame → Except String (List (Option ℚ))

/-- `FeatureEngineer._add_indicator_features` (feature_engineering.py
lines 76-113): `rsi`; `macd`/`macd_signal`/`macd_hist`; `adx`/`plus_di`/
`minus_di`; `bb_upper`/`bb_middle`/`bb_lower`/`bb_width`; `atr`/`atr_pct`;
`ema_20`/`ema_50`/`sma_200`; `obv`/`mfi`.  `bb_width = (upper - lower) /
middle` elementwise and `atr_pct = atr / Close`; any indicator failure
propagates. -/
def add_indicator_features (ti : TechnicalIndicators) (f0 : Frame) :
    Except String Frame :=
  match ti.calculate_rsi f0 with
  | .error e => .error e
  | .ok rsi =>
    let f1 := addCol f0 rsi
    match ti.calculate_macd f1 with
    | .error e => .error e
    | .ok macd =>
      let f2 := addCol (addCol (addCol f1 macd.1) macd.2.1) macd.2.2
      match ti.calculate_adx f2 with
      | .error e => .error e
      | .ok adx =>
        let f3 := addCol (addCol (addCol f2 adx.1) adx.2.1) adx.2.2
        match ti.calculate_bollinger_bands f3 with
        | .error e => .error e
        | .ok bb =>
          let bbWidth := List.zipWith
            (fun ul mid =>
              match ul, mid with
              | some d, some m => some (d / m)
              | _, _ => none)
            (List.zipWith
              (fun up low =>
                match up, low with
                | some a, some b => some (a - b)
                | _, _ => none) bb.1 bb.2.2)
            bb.2.1
          let f4 := addCol (addCol (addCol (addCol f3 bb.1) bb.2.1) bb.2.2) bbWidth
          match ti.calculate_atr f4 with
          | .error e => .error e
          | .ok atr =>
            let f5 := addCol f4 atr
            let f6 := addCol f5
              (List.zipWith (fun (a : Option ℚ) r => a.map fun x => x / r.cl)
                atr f5.rows)
            match ti.calculate_ema f6 20 with
            | .error e => .error e
            | .ok ema20 =>
              let f7 := addCol f6 ema20
              match ti.calculate_ema f7 50 with
              | .error e => .error e
              | .ok ema50 =>
                let f8 := addCol f7 ema50
                match ti.calculate_sma f8 200 with
                | .error e => .error e
                | .ok sma200 =>
                  let f9 := addCol f8 sma200
                  match ti.calculate_obv f9 with
                  | .error e => .error e
                  | .ok obv =>
                    let f10 := addCol f9 obv
                    match ti.calculate_mfi f10 with
                    | .error e => .error e
                    | .ok mfi => .ok (addCol f10 mfi)

/-- `FeatureEngineer._add_price_features` (feature_engineering.py
lines 115-133).  The percentage-change columns read the `Close` column, which
`addCol` never alters, so they are computed from the stage-entry frame. -/
def add_price_features (f0 : Frame) : Frame :=
  let closes := f0.rows.map (·.cl)
  addRowCol (addRowCol (addRowCol (addRowCol (addRowCol
    (addCol (addCol (addCol f0
      (pctChange 1 closes))
      (pctChange 5 closes))
      (pctChange 10 closes))
    (fun r => (r.hi - r.lo) / r.cl))
    (fun r => |r.cl - r.op| / r.cl))
    (fun r => (r.hi - max r.op r.cl) / r.cl))
    (fun r => (min r.op r.cl - r.lo) / r.cl))
    (fun r => (r.cl - r.lo) / (r.hi - r.lo))

/-- `FeatureEngineer._add_volume_features` (feature_engineering.py
lines 135-141): `volume_change` and `volume_ma_ratio = Volume /
Volume.rolling(20).mean()`. -/
def add_volume_features (f0 : Frame) : Frame :=
  let vols := f0.rows.map (·.vol)
  addCol (addCol f0 (pctChange 1 vols))
    (List.zipWith (fun v m => m.map fun mm => v / mm) vols (rollingMean 20 vols))

/-- `FeatureEngineer._add_time_features` (feature_engineering.py
lines 143-150): `hour`, `day_of_week`, and the London / New York session
flags. -/
def add_time_features (f0 : Frame) : Frame :=
  addRowCol (addRowCol (addRowCol (addRowCol f0
    (fun r => (hourOf r.time : ℚ)))
    (fun r => (dayOfWeekOf r.time : ℚ)))
    (fun r => if 8 ≤ hourOf r.time ∧ hourOf r.time < 17 then 1 else 0))
    (fun r => if 13 ≤ hourOf r.time ∧ hourOf r.time < 22 then 1 else 0)

/-- `FeatureEngineer._add_smc_features` (feature_engineering.py
lines 152-165): `recent_highs`, `recent_lows` (count of window extrema over a
trailing 20-bar window) and `trend_strength` (20-period percentage change of
`Close`). -/
def add_smc_features (f0 : Frame) : Frame :=
  let highs := f0.rows.map (·.hi)
  let lows := f0.rows.map (·.lo)
  let closes := f0.rows.map (·.cl)
  addCol (addCol (addCol f0
    (rollingCountMax 20 highs))
    (rollingCountMin 20 lows))
    (pctChange 20 closes)

/-- `df.dropna()`: keep exactly the rows with no undefined cell. -/
def dropna (f : Frame) : Frame :=
  ⟨f.rows.filter fun r => r.feats.all Option.isSome⟩

/-- The `try`-block body of `FeatureEngineer.create_features`
(feature_engineering.py lines 45-70): the five feature stages followed by
`dropna`. -/
def featurePipeline (ti : TechnicalIndicators) (df : Frame) :
    Except String Frame :=
  match add_indicator_features ti df with
  | .error e => .error e
  | .ok f1 =>
    .ok (dropna (add_smc_features (add_time_features (add_volume_features
      (add_price_features f1)))))

/-- `FeatureEngineer.create_features` (feature_engineering.py lines 35-74):
on any exception the handler returns the *input* frame unchanged. -/
def create_features (ti : TechnicalIndicators) (df : Frame) : Frame :=
  match featurePipeline ti df with
  | .ok f => f
  | .error _ => df

/-! ### Support lemmas about the feature pipeline -/

@[simp] theorem pctChange_length (k : Nat) (xs : List ℚ) :
    (pctChange k xs).length = xs.length := by
  simp [pctChange]

@[simp] theorem rollingMean_length (n : Nat) (xs : List ℚ) :
    (rollingMean n xs).length = xs.length := by
  simp [rollingMean]

@[simp] theorem rollingCountMax_length (n : Nat) (xs : List ℚ) :
    (rollingCountMax n xs).length = xs.length := by
  simp [rollingCountMax]

@[simp] theorem rollingCountMin_length (n : Nat) (xs : List ℚ) :
    (rollingCountMin n xs).length = xs.length := by
  simp [rollingCountMin]

theorem addCol_length (f : Frame) (col : List (Option ℚ)) :
    (addCol f col).rows.length = min f.rows.length col.length := by
  simp [addCol]

theorem addCol_length_le (f : Frame) (col : List (Option ℚ)) :
    (addCol f col).rows.length ≤ f.rows.length := by
  rw [addCol_length]; exact Nat.min_le_left _ _

@[simp] theorem addRowCol_length (f : Frame) (g : FRow → ℚ) :
    (addRowCol f g).rows.length = f.rows.length := by
  simp [addRowCol, addCol_length]

@[simp] theorem add_price_features_length (f : Frame) :
    (add_price_features f).rows.length = f.rows.length := by
  simp [add_price_features, addCol_length]

@[simp] theorem add_volume_features_length (f : Frame) :
    (add_volume_features f).rows.length = f.rows.length := by
  simp [add_volume_features, addCol_length]

@[simp] theorem add_time_features_length (f : Frame) :
    (add_time_features f).rows.length = f.rows.length := by
  simp [add_time_features]

@[simp] theorem add_smc_features_length (f : Frame) :
    (add_smc_features f).rows.length = f.rows.length := by
  simp [add_smc_features, addCol_length]

/-- Appending a sufficiently long column preserves "the head row has an
undefined cell". -/
theorem addCol_head_none (f : Frame) (col : List (Option ℚ))
    (hlen : f.rows.length ≤ col.length)
    (h : ∃ r rest, f.rows = r :: rest ∧ none ∈ r.feats) :
    ∃ r rest, (addCol f col).rows = r :: rest ∧ none ∈ r.feats := by
  obtain ⟨r, rest, hr, hmem⟩ := h
  cases col with
  | nil => rw [hr] at hlen; simp at hlen
  | cons c ct =>
    refine ⟨{ r with feats := r.feats ++ [c] },
      List.zipWith (fun row cell => { row with feats := row.feats ++ [cell] })
        rest ct, ?_, ?_⟩
    · unfold addCol
      rw [hr, List.zipWith_cons_cons]
    · simp [hmem]

/-- Row-wise (always defined) columns preserve the head-undefined property. -/
theorem addRowCol_head_none (f : Frame) (g : FRow → ℚ)
    (h : ∃ r rest, f.rows = r :: rest ∧ none ∈ r.feats) :
    ∃ r rest, (addRowCol f g).rows = r :: rest ∧ none ∈ r.feats :=
  addCol_head_none f _ (by simp) h

/-- `pct_change` with a positive period starts with `NaN`. -/
theorem pctChange_head (k : Nat) (hk : 0 < k) (x : ℚ) (xt : List ℚ) :
    ∃ ct, pctChange k (x :: xt) = none :: ct := by
  unfold pctChange
  simp only [List.length_cons, List.range_succ_eq_map, List.map_cons]
  rw [if_pos hk]
  exact ⟨_, rfl⟩

/-- After the price-feature stage the head row always carries `NaN` (from the
one-period `pct_change`), for any nonempty frame. -/
theorem add_price_features_head_none (f : Frame) (hne : f.rows ≠ []) :
    ∃ r rest, (add_price_features f).rows = r :: rest ∧ none ∈ r.feats := by
  obtain ⟨r0, rest0, hr⟩ : ∃ r0 rest0, f.rows = r0 :: rest0 := by
    cases hfr : f.rows with
    | nil => exact absurd hfr hne
    | cons a l => exact ⟨a, l, rfl⟩
  have hcloses : f.rows.map (·.cl) = r0.cl :: rest0.map (·.cl) := by
    rw [hr]; rfl
  obtain ⟨ct, hct⟩ := pctChange_head 1 (by norm_num) r0.cl (rest0.map (·.cl))
  have h1 : ∃ r rest,
      (addCol f (pctChange 1 (f.rows.map (·.cl)))).rows = r :: rest ∧
        none ∈ r.feats := by
    refine ⟨{ r0 with feats := r0.feats ++ [none] },
      List.zipWith (fun row cell => { row with feats := row.feats ++ [cell] })
        rest0 ct, ?_, ?_⟩
    · unfold addCol
      rw [hcloses, hct, hr, List.zipWith_cons_cons]
    · simp
  unfold add_price_features
  apply addRowCol_head_none
  apply addRowCol_head_none
  apply addRowCol_head_none
  apply addRowCol_head_none
  apply addRowCol_head_none
  apply addCol_head_none _ _ (by simp [addCol_length])
  apply addCol_head_none _ _ (by simp [addCol_length])
  exact h1

/-- The volume-feature stage preserves the head-undefined property. -/
theorem add_volume_features_head_none (f : Frame)
    (h : ∃ r rest, f.rows = r :: rest ∧ none ∈ r.feats) :
    ∃ r rest, (add_volume_features f).rows = r :: rest ∧ none ∈ r.feats := by
  unfold add_volume_features
  apply addCol_head_none _ _ (by simp [addCol_length])
  apply addCol_head_none _ _ (by simp)
  exact h

/-- The time-feature stage preserves the head-undefined property. -/
theorem add_time_features_head_none (f : Frame)
    (h : ∃ r rest, f.rows = r :: rest ∧ none ∈ r.feats) :
    ∃ r rest, (add_time_features f).rows = r :: rest ∧ none ∈ r.feats := by
  unfold add_time_features
  apply addRowCol_head_none
  apply addRowCol_head_none
  apply addRowCol_head_none
  apply addRowCol_head_none
  exact h

/-- The SMC-feature stage preserves the head-undefined property. -/
theorem add_smc_features_head_none (f : Frame)
    (h : ∃ r rest, f.rows = r :: rest ∧ none ∈ r.feats) :
    ∃ r rest, (add_smc_features f).rows = r :: rest ∧ none ∈ r.feats := by
  unfold add_smc_features
  apply addCol_head_none _ _ (by simp [addCol_length])
  apply addCol_head_none _ _ (by simp [addCol_length])
  apply addCol_head_none _ _ (by simp)
  exact h

/-- `dropna` strictly shortens a frame whose head row has an undefined
cell. -/
theorem dropna_length_lt (f : Frame)
    (h : ∃ r rest, f.rows = r :: rest ∧ none ∈ r.feats) :
    (dropna f).rows.length < f.rows.length := by
  obtain ⟨r, rest, hr, hmem⟩ := h
  have hpr : r.feats.all Option.isSome = false := by
    rw [List.all_eq_false]
    exact ⟨none, hmem, by simp⟩
  unfold dropna
  rw [hr, List.filter_cons_of_neg (by simp [hpr]), List.length_cons]
  exact Nat.lt_succ_of_le (List.length_filter_le _ _)

/-- Every row surviving `dropna` is fully defined. -/
theorem dropna_all_defined (f : Frame) :
    ∀ r ∈ (dropna f).rows, r.feats.all Option.isSome = true := by
  intro r hr
  unfold dropna at hr
  dsimp only at hr
  exact (List.mem_filter.mp hr).2

/-- The indicator stage can only shorten the frame (index-aligned column
assignment truncates to the shorter of the two lengths). -/
theorem add_indicator_features_length_le (ti : TechnicalIndicators)
    (f g : Frame) (h : add_indicator_features ti f = .ok g) :
    g.rows.length ≤ f.rows.length := by
  unfold add_indicator_features at h
  dsimp only at h
  iterate 10 (all_goals try split at h)
  all_goals
    first
      | exact Except.noConfusion h
      | (injection h with h
         subst h
         repeat refine le_trans (addCol_length_le _ _) ?_
         exact le_rfl)

end FeatureEngineering

/-! ## `ContinuousLearner.execute_retraining` (continuous_learner.py 74-140) -/

namespace ContinuousLearner

/-- The fields of the `train_new_model` result dictionary read by
`execute_retraining`. -/
structure TrainResult where
  testAccuracy : ℚ
  cvMean : ℚ
  deriving DecidableEq, Repr

open FeatureEngineering in
/-- Outcomes of the external collaborators invoked inside the `try` block of
`execute_retraining`: `MT5DataFetcher.get_ohlcv` reads the broker terminal
(`none` = Python `None`; an empty frame is the `df.empty` case);
`train` is the behaviour of the method `ModelManager.train_new_model(df,
version)` (it wraps the scikit-learn training stack of `src/ml/training.py`)
*were it invoked with arguments it accepts*; `historyWriteOk` is whether the
`retraining_history.json` file round-trip at continuous_learner.py:270-286
succeeds. -/
structure RetrainEnv where
  fetch : Except String (Option Frame)
  train : Frame → Except String TrainResult
  historyWriteOk : Bool

open FeatureEngineering in
/-- The call expression at continuous_learner.py:109-116: it passes the
keyword arguments `tune_hyperparameters`, `select_features`,
`calibrate_probabilities` and `n_features`, none of which
`ModelManager.train_new_model(self, df, version=None)`
(model_manager.py:46-50) accepts.  Python therefore raises `TypeError` at the
call itself, before the method body — and with it `train` — can run. -/
def call_train_new_model (train : Frame → Except String TrainResult)
    (df : Frame) (version : Option String) : Except String TrainResult :=
  .error "train_new_model() got an unexpected keyword argument tune_hyperparameters"

/-- One entry of `retraining_history.json`
(`ContinuousLearner._store_retraining_record`, lines 262-289). -/
structure RetrainRecord where
  timestamp : ℚ
  version : String
  accuracy : ℚ
  trigger : String
  deriving DecidableEq, Repr

/-- The dictionary returned by `execute_retraining`. -/
structure RetrainOutcome where
  success : Bool
  errMsg : Option String
  version : Option String
  accuracy : Option ℚ
  cvScore : Option ℚ
  improvement : Option ℚ
  deriving DecidableEq, Repr

/-- `ContinuousLearner._calculate_improvement` (continuous_learner.py
lines 237-260).  With fewer than two versions it returns `None`; otherwise the
body dereferences `MODELS_DIR`, which is not imported at module scope in
continuous_learner.py (only locally inside other methods), so the resulting
`NameError` is swallowed by the bare `except` and the method returns `None` on
every path. -/
def calculate_improvement (dir : ModelsDir) (newAccuracy : ℚ) : Option ℚ :=
  none

/-- `ContinuousLearner._store_retraining_record` (lines 262-289): append one
record to the history log (the file round-trip is modelled in-memory).  The
whole body sits inside a `try` whose handler at lines 288-289 only logs, so a
failing read or write is swallowed: the history file is left unchanged and
the caller is never informed. -/
def store_retraining_record (writeOk : Bool) (history : List RetrainRecord)
    (now : ℚ) (version : String) (accuracy : ℚ) (trigger : String) :
    List RetrainRecord :=
  if writeOk then history ++ [⟨now, version, accuracy, trigger⟩] else history

/-- The version string `f"v2.0.0_auto_{datetime.now().strftime(...)}"`
derived in `execute_retraining` (line 107). -/
def autoVersion (now : ℚ) : String :=
  "v2.0.0_auto_" ++ toString now

open FeatureEngineering in
/-- `ContinuousLearner.execute_retraining` (continuous_learner.py
lines 74-140): fetch fresh bars, invoke the training call, append a history
record, and report; the enclosing `try`/`except` turns any raise into a
structured `success = false` result.  The training call is
`call_train_new_model`, which raises `TypeError` (unaccepted keyword
arguments), so in the current code the success branch of lines 118-136 —
kept below as the source keeps it — is never reached. -/
def execute_retraining (env : RetrainEnv) (dir : ModelsDir)
    (history : List RetrainRecord) (now : ℚ) :
    RetrainOutcome × List RetrainRecord :=
  match env.fetch with
  | .error e => (⟨false, some e, none, none, none, none⟩, history)
  | .ok df? =>
    match df? with
    | none => (⟨false, some "Data fetch failed", none, none, none, none⟩, history)
    | some df =>
      if df.rows.isEmpty then
        (⟨false, some "Data fetch failed", none, none, none, none⟩, history)
      else
        let version := autoVersion now
        match call_train_new_model env.train df (some version) with
        | .error e => (⟨false, some e, none, none, none, none⟩, history)
        | .ok result =>
          let history' :=
            store_retraining_record env.historyWriteOk history now version
              result.testAccuracy "automatic"
          (⟨true, none, some version, some result.testAccuracy,
            some result.cvMean, calculate_improvement dir result.testAccuracy⟩,
           history')

end ContinuousLearner

/-! ## Shared concrete fixtures for the closed instances below -/

/-- A trivially-behaved model blob (the blob contents are irrelevant to the
lifecycle properties). -/
def trivialModel : MLModel := ⟨fun _ => [], fun _ => []⟩

/-- A trivially-behaved scaler blob. -/
def trivialScaler : Scaler := ⟨fun _ => []⟩

/-- An empty `models/` directory. -/
def emptyModelsDir : ModelsDir :=
  ⟨[], [], [], [], [], [], fun _ => trivialModel, fun _ => trivialScaler⟩

/-! ## Theorems -/

open PredictionTracker ContinuousLearner FeatureEngineering

/-- **C4**: verification classifies the realized percentage price change as
BULLISH exactly when it exceeds +0.05 (%), BEARISH exactly when it is below
−0.05, NEUTRAL otherwise; correctness is set exactly when the realized class
equals the predicted sentiment; and the price pair (1.0850, 1.0856) realizes
BULLISH. -/
theorem determine_outcome_classification :
    (∀ pct : ℚ,
      (determine_outcome pct = .BULLISH ↔ 5/100 < pct) ∧
      (determine_outcome pct = .BEARISH ↔ pct < -(5/100)) ∧
      (determine_outcome pct = .NEUTRAL ↔ -(5/100) ≤ pct ∧ pct ≤ 5/100)) ∧
    (∀ (pred : Prediction) (currentPrice : ℚ),
      (classify_prediction pred currentPrice).1 =
        determine_outcome (price_change_pct currentPrice pred.priceAtPrediction) ∧
      ((classify_prediction pred currentPrice).2 = true ↔
        (classify_prediction pred currentPrice).1 = pred.sentiment)) ∧
    determine_outcome (price_change_pct (10856/10000) (10850/10000)) = .BULLISH := by
  refine ⟨fun pct => ?_, fun pred currentPrice => ?_, ?_⟩
  · have hth : determine_outcome pct =
        if pct > 5/100 then .BULLISH
        else if pct < -(5/100) then .BEARISH
        else .NEUTRAL := rfl
    by_cases h1 : pct > 5/100
    · rw [hth, if_pos h1]
      exact ⟨⟨fun _ => h1, fun _ => rfl⟩,
        ⟨fun h => Sentiment.noConfusion h, fun h => absurd h (by linarith)⟩,
        ⟨fun h => Sentiment.noConfusion h, fun h => absurd h.2 (not_le.mpr h1)⟩⟩
    · by_cases h2 : pct < -(5/100)
      · rw [hth, if_neg h1, if_pos h2]
        exact ⟨⟨fun h => Sentiment.noConfusion h, fun h => absurd h h1⟩,
          ⟨fun _ => h2, fun _ => rfl⟩,
          ⟨fun h => Sentiment.noConfusion h, fun h => absurd h2 (not_lt.mpr h.1)⟩⟩
      · rw [hth, if_neg h1, if_neg h2]
        exact ⟨⟨fun h => Sentiment.noConfusion h, fun h => absurd h h1⟩,
          ⟨fun h => Sentiment.noConfusion h, fun h => absurd h h2⟩,
          ⟨fun _ => ⟨not_lt.mp h2, not_lt.mp h1⟩, fun _ => rfl⟩⟩
  · refine ⟨rfl, ?_⟩
    show decide _ = true ↔ _
    simp [classify_prediction]
  · show determine_outcome ((10856/10000 - 10850/10000) / (10850/10000) * 100) = _
    have hgt : (5/100 : ℚ) <
        (10856/10000 - 10850/10000) / (10850/10000) * 100 := by norm_num
    show (if _ > 5/100 then Sentiment.BULLISH else _) = _
    rw [if_pos hgt]

/-- A repository holding one stale (100-hour-old at the reference time)
unverified H1 prediction, eligible for verification. -/
def stalePredictionRepo : DatabaseRepository :=
  ⟨[⟨3, "EURUSD", "H1", .BULLISH, 3/4, 1, 0, false, none, false, none,
      none⟩]⟩

/-- Counterexample to **C10**: `lookback_hours` does have an observable
effect.  With a small lookback the stale prediction is verified (count 1);
with `lookback_hours = 18000000` the dead `cutoff_time` expression
`datetime.now() - timedelta(hours=lookback_hours)` falls below
`datetime.min`, raising `OverflowError`, which the handler at
prediction_tracker.py:157-159 turns into a `0` return with nothing verified
— a different result for two lookback values on the same state. -/
theorem verify_predictions_lookback_observable_counterexample :
    (verify_predictions (some stalePredictionRepo) "EURUSD" 2 24 100).2 = 1 ∧
    (verify_predictions (some stalePredictionRepo) "EURUSD" 2 18000000
        100).2 = 0 ∧
    verify_predictions (some stalePredictionRepo) "EURUSD" 2 24 100 ≠
      verify_predictions (some stalePredictionRepo) "EURUSD" 2 18000000
        100 := by
  have h1 : (verify_predictions (some stalePredictionRepo) "EURUSD" 2 24
      100).2 = 1 := by
    norm_num [verify_predictions, cutoff_in_range, timedeltaMinHours,
      timedeltaSupHours, datetimeMinHours, datetimeSupHours,
      DatabaseRepository.get_predictions, stalePredictionRepo, verifyLoop,
      List.filter, show get_verification_window "H1" = 4 from rfl]
  have h2 : (verify_predictions (some stalePredictionRepo) "EURUSD" 2
      18000000 100).2 = 0 := by
    norm_num [verify_predictions, cutoff_in_range, timedeltaMinHours,
      timedeltaSupHours, datetimeMinHours, datetimeSupHours]
  refine ⟨h1, h2, fun h => ?_⟩
  rw [h, h2] at h1
  exact absurd h1 (by decide)

/-- **C10** (amended): the lookback parameter affects `verify_predictions`
only through the dead `cutoff_time` computation's possible overflow — for
any two lookback values for which `datetime.now() - timedelta(hours=...)`
is representable, the verified predictions and the returned count are
identical (only each prediction's own timeframe-specific window gates
verification); an out-of-range lookback instead makes the call return `0`
verified with the repository untouched. -/
theorem verify_predictions_lookback_amended :
    ∀ (repository : Option DatabaseRepository) (symbol : String)
      (currentPrice lookback₁ lookback₂ now : ℚ),
      (cutoff_in_range lookback₁ now → cutoff_in_range lookback₂ now →
        verify_predictions repository symbol currentPrice lookback₁ now =
          verify_predictions repository symbol currentPrice lookback₂ now) ∧
      (∀ repo : DatabaseRepository, repository = some repo →
        ¬ cutoff_in_range lookback₁ now →
        verify_predictions repository symbol currentPrice lookback₁ now =
          (some repo, 0)) := by
  intro repository symbol currentPrice lookback₁ lookback₂ now
  constructor
  · intro h1 h2
    cases repository with
    | none => rfl
    | some repo =>
      simp only [verify_predictions]
      rw [if_pos h1, if_pos h2]
  · intro repo hrep hno
    subst hrep
    simp only [verify_predictions]
    rw [if_neg hno]

/-- Witness for the amended **C10**: two in-range lookbacks give identical
results on a concrete repository, and an overflowing lookback returns the
repository untouched with count `0`. -/
theorem verify_predictions_lookback_amended_witness :
    verify_predictions (some stalePredictionRepo) "EURUSD" 2 24 100 =
      verify_predictions (some stalePredictionRepo) "EURUSD" 2 48 100 ∧
    verify_predictions (some stalePredictionRepo) "EURUSD" 2 18000000 100 =
      (some stalePredictionRepo, 0) := by
  constructor
  · exact (verify_predictions_lookback_amended (some stalePredictionRepo)
      "EURUSD" 2 24 48 100).1
      (by unfold cutoff_in_range timedeltaMinHours timedeltaSupHours
            datetimeMinHours datetimeSupHours
          norm_num)
      (by unfold cutoff_in_range timedeltaMinHours timedeltaSupHours
            datetimeMinHours datetimeSupHours
          norm_num)
  · exact (verify_predictions_lookback_amended (some stalePredictionRepo)
      "EURUSD" 2 18000000 48 100).2 stalePredictionRepo rfl
      (by intro hc
          have h3 := hc.2.2.1
          norm_num [datetimeMinHours] at h3)

/-- **C8**: `predict` with no active model fails with the
"no active model" error and never returns a default; with a loaded model it
returns probabilities when requested and labels otherwise. -/
theorem predict_requires_active_model :
    ∀ (st : ModelManager.State) (X : List (List ℚ)) (returnProba : Bool),
      (st.active = none →
        ModelManager.predict st X returnProba = .error "No active model loaded") ∧
      ((ModelManager.predict st X returnProba).isOk = true ↔
        st.active.isSome = true) ∧
      (∀ activeModel activeScaler,
        st.active = some (activeModel, activeScaler) →
        ModelManager.predict st X returnProba =
          if returnProba then
            .ok (.probs (activeModel.predictProba (activeScaler.transform X)))
          else
            .ok (.labels (activeModel.predictLabels (activeScaler.transform X)))) := by
  intro st X returnProba
  refine ⟨fun h => ?_, ?_, fun activeModel activeScaler h => ?_⟩
  · simp [ModelManager.predict, h]
  · cases h : st.active with
    | none => simp [ModelManager.predict, h, Except.isOk, Except.toBool]
    | some pair =>
      cases returnProba <;>
        simp [ModelManager.predict, h, Except.isOk, Except.toBool]
  · cases returnProba <;> simp [ModelManager.predict, h]

/-- Witness for **C8**: on a fresh manager state (nothing loaded), `predict`
fails with the explicit "no active model" error. -/
theorem predict_requires_active_model_witness :
    ModelManager.predict ⟨emptyModelsDir, none⟩ [[1, 2]] false =
      .error "No active model loaded" :=
  (predict_requires_active_model ⟨emptyModelsDir, none⟩ [[1, 2]] false).1 rfl

/-- An indicator library in which every computation raises (the spec's
failure mode for sub-indicator computations). -/
def failingIndicators : TechnicalIndicators :=
  { calculate_rsi := fun _ => .error "rsi failed"
    calculate_macd := fun _ => .error "macd failed"
    calculate_adx := fun _ => .error "adx failed"
    calculate_bollinger_bands := fun _ => .error "bb failed"
    calculate_atr := fun _ => .error "atr failed"
    calculate_ema := fun _ _ => .error "ema failed"
    calculate_sma := fun _ _ => .error "sma failed"
    calculate_obv := fun _ => .error "obv failed"
    calculate_mfi := fun _ => .error "mfi failed" }

/-- An indicator library in which every indicator returns a fully defined,
row-aligned column. -/
def constantIndicators : TechnicalIndicators :=
  { calculate_rsi := fun f => .ok (f.rows.map fun _ => some 0)
    calculate_macd := fun f =>
      .ok (f.rows.map fun _ => some 0, f.rows.map fun _ => some 0,
        f.rows.map fun _ => some 0)
    calculate_adx := fun f =>
      .ok (f.rows.map fun _ => some 0, f.rows.map fun _ => some 0,
        f.rows.map fun _ => some 0)
    calculate_bollinger_bands := fun f =>
      .ok (f.rows.map fun _ => some 0, f.rows.map fun _ => some 0,
        f.rows.map fun _ => some 0)
    calculate_atr := fun f => .ok (f.rows.map fun _ => some 0)
    calculate_ema := fun f _ => .ok (f.rows.map fun _ => some 0)
    calculate_sma := fun f _ => .ok (f.rows.map fun _ => some 0)
    calculate_obv := fun f => .ok (f.rows.map fun _ => some 0)
    calculate_mfi := fun f => .ok (f.rows.map fun _ => some 0) }

/-- A well-formed single-bar OHLCV frame. -/
def oneBarFrame : Frame := ⟨[⟨0, 1, 1, 1, 1, 1, []⟩]⟩

/-- Counterexample to **C9**: on the exception path (here: the RSI
computation raises) `create_features` returns the input frame unchanged, so
the output does *not* have strictly fewer rows than the input — the claimed
property fails on this execution path. -/
theorem create_features_exception_counterexample :
    create_features failingIndicators oneBarFrame = oneBarFrame ∧
    ¬ (create_features failingIndicators oneBarFrame).rows.length <
        oneBarFrame.rows.length := by
  refine ⟨rfl, ?_⟩
  rw [show create_features failingIndicators oneBarFrame = oneBarFrame from
    rfl]
  exact lt_irrefl _

/-- **C9** (amended): on the successful path of the transform — no sub-step
raises — the table returned by `create_features` contains no row with an
undefined value (warm-up rows are dropped, never imputed), and for nonempty
input the output has strictly fewer rows than the input; on the exception
path the handler returns the input frame unchanged instead. -/
theorem create_features_ok_path (ti : TechnicalIndicators) (df g : Frame)
    (hok : featurePipeline ti df = .ok g) :
    create_features ti df = g ∧
    (∀ r ∈ g.rows, r.feats.all Option.isSome = true) ∧
    (df.rows ≠ [] → g.rows.length < df.rows.length) := by
  obtain ⟨f1, hind, hg⟩ : ∃ f1, add_indicator_features ti df = .ok f1 ∧
      g = dropna (add_smc_features (add_time_features (add_volume_features
        (add_price_features f1)))) := by
    unfold featurePipeline at hok
    cases hind : add_indicator_features ti df with
    | error e => rw [hind] at hok; exact Except.noConfusion hok
    | ok f1 =>
      rw [hind] at hok
      injection hok with hok
      exact ⟨f1, rfl, hok.symm⟩
  refine ⟨?_, ?_, ?_⟩
  · unfold create_features
    rw [hok]
  · rw [hg]
    exact dropna_all_defined _
  · intro hne
    have hlen1 : f1.rows.length ≤ df.rows.length :=
      add_indicator_features_length_le ti df f1 hind
    have hpos : 0 < df.rows.length := List.length_pos.mpr hne
    by_cases hf1 : f1.rows = []
    · have hXlen : (add_smc_features (add_time_features (add_volume_features
          (add_price_features f1)))).rows.length = 0 := by
        simp [hf1]
      have hdle : g.rows.length ≤ 0 := by
        rw [hg, ← hXlen]
        unfold dropna
        exact List.length_filter_le _ _
      omega
    · have hs := add_smc_features_head_none _
        (add_time_features_head_none _
          (add_volume_features_head_none _
            (add_price_features_head_none f1 hf1)))
      have hlt := dropna_length_lt _ hs
      rw [hg]
      refine lt_of_lt_of_le hlt ?_
      simp only [add_smc_features_length, add_time_features_length,
        add_volume_features_length, add_price_features_length]
      exact hlen1

set_option maxHeartbeats 2000000 in
/-- Witness for the amended **C9**: with a well-behaved indicator library and
a one-bar frame, the output is fully defined and strictly shorter. -/
theorem create_features_ok_path_witness :
    (∀ r ∈ (create_features constantIndicators oneBarFrame).rows,
        r.feats.all Option.isSome = true) ∧
    (create_features constantIndicators oneBarFrame).rows.length <
      oneBarFrame.rows.length := by
  obtain ⟨g, hg⟩ : ∃ g, featurePipeline constantIndicators oneBarFrame =
      .ok g := ⟨_, rfl⟩
  obtain ⟨hceq, hall, hlt⟩ :=
    create_features_ok_path constantIndicators oneBarFrame g hg
  rw [hceq]
  exact ⟨hall, hlt (by simp [oneBarFrame])⟩

/-- Characterization of `needs_retraining` in terms of the accuracy
statistics and the unverified count (shared support lemma). -/
theorem needs_retraining_char (repository : Option DatabaseRepository)
    (now minAccuracy : ℚ) (minPredictions checkDays : Nat) :
    (needs_retraining repository now minAccuracy minPredictions
        checkDays).totalPredictions =
      (get_recent_accuracy repository now none checkDays).total ∧
    (needs_retraining repository now minAccuracy minPredictions
        checkDays).currentAccuracy =
      (get_recent_accuracy repository now none checkDays).accuracy ∧
    (needs_retraining repository now minAccuracy minPredictions
        checkDays).unverifiedPredictions = get_unverified_count repository ∧
    ((needs_retraining repository now minAccuracy minPredictions
        checkDays).needsRetraining = true ↔
      ((minPredictions ≤ (get_recent_accuracy repository now none checkDays).total ∧
        (get_recent_accuracy repository now none checkDays).accuracy < minAccuracy) ∨
        200 < get_unverified_count repository)) ∧
    ((get_recent_accuracy repository now none checkDays).total < minPredictions →
      RetrainReason.notEnoughPredictions
          (get_recent_accuracy repository now none checkDays).total minPredictions ∈
        (needs_retraining repository now minAccuracy minPredictions checkDays).reasons) ∧
    (minPredictions ≤ (get_recent_accuracy repository now none checkDays).total →
      (get_recent_accuracy repository now none checkDays).accuracy < minAccuracy →
      RetrainReason.accuracyBelowThreshold
          (get_recent_accuracy repository now none checkDays).accuracy minAccuracy ∈
        (needs_retraining repository now minAccuracy minPredictions checkDays).reasons) ∧
    (200 < get_unverified_count repository →
      RetrainReason.newPredictionsAvailable (get_unverified_count repository) ∈
        (needs_retraining repository now minAccuracy minPredictions checkDays).reasons) := by
  unfold needs_retraining
  generalize get_recent_accuracy repository now none checkDays = stats
  generalize get_unverified_count repository = unv
  dsimp only
  by_cases h1 : stats.total < minPredictions
  · by_cases h3 : 200 < unv
    · rw [if_pos h1, if_pos h3]
      exact ⟨rfl, rfl, rfl,
        ⟨fun _ => Or.inr h3, fun _ => rfl⟩,
        fun _ => by simp,
        fun hk => absurd h1 (not_lt.mpr hk),
        fun _ => by simp⟩
    · rw [if_pos h1, if_neg h3]
      exact ⟨rfl, rfl, rfl,
        ⟨fun hb => Bool.noConfusion hb,
         fun hor => hor.elim (fun hk => absurd h1 (not_lt.mpr hk.1))
           (fun h3' => absurd h3' h3)⟩,
        fun _ => by simp,
        fun hk => absurd h1 (not_lt.mpr hk),
        fun h3' => absurd h3' h3⟩
  · by_cases h2 : stats.accuracy < minAccuracy
    · by_cases h3 : 200 < unv
      · rw [if_neg h1, if_pos h2, if_pos h3]
        exact ⟨rfl, rfl, rfl,
          ⟨fun _ => Or.inl ⟨not_lt.mp h1, h2⟩, fun _ => rfl⟩,
          fun hlt => absurd hlt h1,
          fun _ _ => by simp,
          fun _ => by simp⟩
      · rw [if_neg h1, if_pos h2, if_neg h3]
        exact ⟨rfl, rfl, rfl,
          ⟨fun _ => Or.inl ⟨not_lt.mp h1, h2⟩, fun _ => rfl⟩,
          fun hlt => absurd hlt h1,
          fun _ _ => by simp,
          fun h3' => absurd h3' h3⟩
    · by_cases h3 : 200 < unv
      · rw [if_neg h1, if_neg h2, if_pos h3]
        exact ⟨rfl, rfl, rfl,
          ⟨fun _ => Or.inr h3, fun _ => rfl⟩,
          fun hlt => absurd hlt h1,
          fun _ h2' => absurd h2' h2,
          fun _ => by simp⟩
      · rw [if_neg h1, if_neg h2, if_neg h3]
        exact ⟨rfl, rfl, rfl,
          ⟨fun hb => Bool.noConfusion hb,
           fun hor => hor.elim (fun hk => absurd hk.2 h2)
             (fun h3' => absurd h3' h3)⟩,
          fun hlt => absurd hlt h1,
          fun _ h2' => absurd h2' h2,
          fun h3' => absurd h3' h3⟩

/-- **C1**: `needs_retraining` recommends retraining exactly when either the
accuracy check fires (enough verified predictions and accuracy below the
threshold) or more than 200 unverified predictions have accumulated; a total
below `min_predictions` alone never recommends and contributes an
insufficient-evidence reason; all applicable reasons are accumulated. -/
theorem needs_retraining_policy (repository : Option DatabaseRepository)
    (now minAccuracy : ℚ) (minPredictions checkDays : Nat) :
    ((needs_retraining repository now minAccuracy minPredictions
        checkDays).needsRetraining = true ↔
      ((minPredictions ≤ (needs_retraining repository now minAccuracy
          minPredictions checkDays).totalPredictions ∧
        (needs_retraining repository now minAccuracy minPredictions
          checkDays).currentAccuracy < minAccuracy) ∨
        200 < (needs_retraining repository now minAccuracy minPredictions
          checkDays).unverifiedPredictions)) ∧
    ((needs_retraining repository now minAccuracy minPredictions
        checkDays).totalPredictions < minPredictions →
      RetrainReason.notEnoughPredictions
          (needs_retraining repository now minAccuracy minPredictions
            checkDays).totalPredictions minPredictions ∈
        (needs_retraining repository now minAccuracy minPredictions checkDays).reasons) ∧
    (minPredictions ≤ (needs_retraining repository now minAccuracy
        minPredictions checkDays).totalPredictions →
      (needs_retraining repository now minAccuracy minPredictions
        checkDays).currentAccuracy < minAccuracy →
      RetrainReason.accuracyBelowThreshold
          (needs_retraining repository now minAccuracy minPredictions
            checkDays).currentAccuracy minAccuracy ∈
        (needs_retraining repository now minAccuracy minPredictions checkDays).reasons) ∧
    (200 < (needs_retraining repository now minAccuracy minPredictions
        checkDays).unverifiedPredictions →
      RetrainReason.newPredictionsAvailable
          (needs_retraining repository now minAccuracy minPredictions
            checkDays).unverifiedPredictions ∈
        (needs_retraining repository now minAccuracy minPredictions checkDays).reasons) := by
  obtain ⟨ht, ha, hu, hiff, hm1, hm2, hm3⟩ :=
    needs_retraining_char repository now minAccuracy minPredictions checkDays
  rw [ht, ha, hu]
  exact ⟨hiff, hm1, hm2, hm3⟩

/-- The repository of spec scenario C: 50 verified predictions, 40 of them
correct (the identifiers play no role in the accuracy aggregation). -/
def scenarioCRepo : DatabaseRepository :=
  ⟨List.replicate 40
      ⟨1, "EURUSD", "H1", .BULLISH, 3/4, 1, 0, true, some .BULLISH, true,
        some 1, some 0⟩ ++
    List.replicate 10
      ⟨2, "EURUSD", "H1", .BULLISH, 3/4, 1, 0, true, some .BEARISH, false,
        some 1, some 0⟩⟩

/-- Witness for **C1** (spec scenario C): 50 verified predictions, 40
correct, `min_accuracy = 0.70`, `min_predictions = 100` — no retraining is
recommended and the insufficient-evidence reason is reported. -/
theorem needs_retraining_policy_witness :
    (needs_retraining (some scenarioCRepo) 0 (70/100) 100 7).needsRetraining
        = false ∧
    RetrainReason.notEnoughPredictions 50 100 ∈
      (needs_retraining (some scenarioCRepo) 0 (70/100) 100 7).reasons := by
  have h := needs_retraining_policy (some scenarioCRepo) 0 (70/100) 100 7
  have htot : (needs_retraining (some scenarioCRepo) 0 (70/100) 100
      7).totalPredictions = 50 := by
    norm_num [needs_retraining, get_recent_accuracy, get_unverified_count,
      DatabaseRepository.get_predictions, scenarioCRepo, List.replicate,
      List.filter]
  have hunv : (needs_retraining (some scenarioCRepo) 0 (70/100) 100
      7).unverifiedPredictions = 0 := by
    norm_num [needs_retraining, get_recent_accuracy, get_unverified_count,
      DatabaseRepository.get_predictions, scenarioCRepo, List.replicate,
      List.filter]
  refine ⟨?_, ?_⟩
  · cases hb : (needs_retraining (some scenarioCRepo) 0 (70/100) 100
        7).needsRetraining with
    | false => rfl
    | true =>
      have := h.1.mp hb
      rw [htot, hunv] at this
      exact absurd this (by norm_num)
  · have := h.2.1
    rw [htot] at this
    exact this (by norm_num)

/-- **C2**: whenever the verified total meets `min_predictions` and the
measured accuracy is below `min_accuracy`, `needs_retraining` reports
`needs_retraining = true` — the accuracy trigger fires for every accuracy
below the threshold, all else fixed. -/
theorem needs_retraining_accuracy_trigger (repository : Option DatabaseRepository)
    (now minAccuracy : ℚ) (minPredictions checkDays : Nat)
    (hge : minPredictions ≤ (needs_retraining repository now minAccuracy
      minPredictions checkDays).totalPredictions)
    (hlt : (needs_retraining repository now minAccuracy minPredictions
      checkDays).currentAccuracy < minAccuracy) :
    (needs_retraining repository now minAccuracy minPredictions
      checkDays).needsRetraining = true := by
  obtain ⟨ht, ha, hu, hiff, hm1, hm2, hm3⟩ :=
    needs_retraining_char repository now minAccuracy minPredictions checkDays
  exact hiff.mpr (Or.inl ⟨ht ▸ hge, ha ▸ hlt⟩)

/-- A repository holding one verified, incorrect prediction. -/
def lowAccuracyRepo : DatabaseRepository :=
  ⟨[⟨1, "EURUSD", "H1", .BULLISH, 3/4, 1, 0, true, some .BEARISH, false,
      some 1, some 0⟩]⟩

/-- Witness for **C2**: one verified incorrect prediction (accuracy 0) with
`min_predictions = 1` and `min_accuracy = 1/2` triggers retraining. -/
theorem needs_retraining_accuracy_trigger_witness :
    (needs_retraining (some lowAccuracyRepo) 100 (1/2) 1 7).needsRetraining
      = true :=
  needs_retraining_accuracy_trigger (some lowAccuracyRepo) 100 (1/2) 1 7
    (by norm_num [needs_retraining, get_recent_accuracy, get_unverified_count,
      DatabaseRepository.get_predictions, lowAccuracyRepo, List.filter])
    (by norm_num [needs_retraining, get_recent_accuracy, get_unverified_count,
      DatabaseRepository.get_predictions, lowAccuracyRepo, List.filter])

/-- `verify_prediction` targeting an id different from `p.id` preserves the
property that every row carrying `p.id` is exactly `p`. -/
theorem verify_prediction_preserves_other (repo : DatabaseRepository)
    (targetId : Nat) (o : Sentiment) (w : Bool) (price now : ℚ)
    (p : Prediction) (hne : targetId ≠ p.id)
    (hinv : ∀ q ∈ repo.predictions, q.id = p.id → q = p) :
    ∀ q ∈ (repo.verify_prediction targetId o w price now).predictions,
      q.id = p.id → q = p := by
  intro q hq hid
  unfold DatabaseRepository.verify_prediction at hq
  simp only [List.mem_map] at hq
  obtain ⟨q0, hq0, hq0e⟩ := hq
  by_cases hc : q0.id = targetId
  · rw [if_pos hc] at hq0e
    rw [← hq0e] at hid
    exact absurd (hc ▸ hid) hne
  · rw [if_neg hc] at hq0e
    exact hinv q (hq0e ▸ hq0) hid

/-- `verify_prediction` targeting an id different from `p.id` keeps the row
`p` in the store untouched. -/
theorem verify_prediction_mem_other (repo : DatabaseRepository)
    (targetId : Nat) (o : Sentiment) (w : Bool) (price now : ℚ)
    (p : Prediction) (hne : targetId ≠ p.id) (hmem : p ∈ repo.predictions) :
    p ∈ (repo.verify_prediction targetId o w price now).predictions := by
  unfold DatabaseRepository.verify_prediction
  simp only [List.mem_map]
  exact ⟨p, hmem, by rw [if_neg fun h => hne h.symm]⟩

/-- The verification loop never touches a prediction `p` younger than its
window, provided every processed row is either itself too young or carries an
id different from `p.id`. -/
theorem verifyLoop_preserves_young (now currentPrice : ℚ) (p : Prediction) :
    ∀ (preds : List Prediction) (repo : DatabaseRepository) (count : Nat),
      (∀ q ∈ preds,
        (now - q.timestamp < get_verification_window q.timeframe) ∨
          q.id ≠ p.id) →
      (∀ q ∈ repo.predictions, q.id = p.id → q = p) →
      p ∈ repo.predictions →
      p ∈ (verifyLoop now currentPrice preds repo count).1.predictions ∧
      ∀ q ∈ (verifyLoop now currentPrice preds repo count).1.predictions,
        q.id = p.id → q = p := by
  intro preds
  induction preds with
  | nil => exact fun repo count _ hinv hmem => ⟨hmem, hinv⟩
  | cons a rest ih =>
    intro repo count hl hinv hmem
    by_cases hc : now - a.timestamp < get_verification_window a.timeframe
    · have hstep : verifyLoop now currentPrice (a :: rest) repo count =
          verifyLoop now currentPrice rest repo count := by
        simp [verifyLoop, hc]
      rw [hstep]
      exact ih repo count (fun q hq => hl q (List.mem_cons_of_mem a hq))
        hinv hmem
    · have hne : a.id ≠ p.id :=
        (hl a (List.mem_cons_self a rest)).resolve_left hc
      have hstep : verifyLoop now currentPrice (a :: rest) repo count =
          verifyLoop now currentPrice rest
            (repo.verify_prediction a.id (classify_prediction a currentPrice).1
              (classify_prediction a currentPrice).2 currentPrice now)
            (count + 1) := by
        simp [verifyLoop, hc]
      rw [hstep]
      exact ih _ _ (fun q hq => hl q (List.mem_cons_of_mem a hq))
        (verify_prediction_preserves_other repo a.id _ _ currentPrice now p
          hne hinv)
        (verify_prediction_mem_other repo a.id _ _ currentPrice now p hne hmem)

/-- **C3**: a prediction whose age is still below its timeframe-specific
verification window is never verified and never mutated by
`verify_predictions`: the resulting repository still contains the identical
(unverified) row, and no row with its id was changed — so a later call
re-examines it unchanged. -/
theorem verify_predictions_skips_young (repo : DatabaseRepository)
    (symbol : String) (currentPrice lookbackHours now : ℚ) (p : Prediction)
    (hmem : p ∈ repo.predictions) (hunv : p.isVerified = false)
    (hids : (repo.predictions.map Prediction.id).Nodup)
    (hyoung : now - p.timestamp < get_verification_window p.timeframe) :
    ∃ repo' : DatabaseRepository,
      (verify_predictions (some repo) symbol currentPrice lookbackHours
          now).1 = some repo' ∧
      p ∈ repo'.predictions ∧ p.isVerified = false ∧
      ∀ q ∈ repo'.predictions, q.id = p.id → q = p := by
  have hinv0 : ∀ q ∈ repo.predictions, q.id = p.id → q = p := fun q hq hid =>
    List.inj_on_of_nodup_map hids hq hmem hid
  have hl : ∀ q ∈ repo.get_predictions (some symbol) (some false) 100,
      (now - q.timestamp < get_verification_window q.timeframe) ∨
        q.id ≠ p.id := by
    intro q hq
    by_cases hqp : q.id = p.id
    · left
      have hqmem : q ∈ repo.predictions :=
        List.mem_of_mem_filter (List.mem_of_mem_take hq)

      have hqp' : q = p := hinv0 q hqmem hqp
      rw [hqp']
      exact hyoung
    · exact Or.inr hqp
  obtain ⟨hm, hi⟩ := verifyLoop_preserves_young now currentPrice p
    (repo.get_predictions (some symbol) (some false) 100) repo 0 hl hinv0 hmem
  by_cases hco : cutoff_in_range lookbackHours now
  · refine ⟨(verifyLoop now currentPrice
        (repo.get_predictions (some symbol) (some false) 100) repo 0).1,
      ?_, hm, hunv, hi⟩
    simp only [verify_predictions]
    rw [if_pos hco]
  · -- the dead cutoff computation overflows: nothing is examined at all
    refine ⟨repo, ?_, hmem, hunv, hinv0⟩
    simp only [verify_predictions]
    rw [if_neg hco]

/-- An unverified "H1" prediction created at time `0`. -/
def youngPrediction : Prediction :=
  ⟨7, "EURUSD", "H1", .BULLISH, 3/4, 1, 0, false, none, false, none, none⟩

/-- A repository holding only `youngPrediction`. -/
def youngRepo : DatabaseRepository := ⟨[youngPrediction]⟩

/-- Witness for **C3**: a one-hour-old H1 prediction (window 4 h) survives a
`verify_predictions` call unchanged and unverified. -/
theorem verify_predictions_skips_young_witness :
    ∃ repo' : DatabaseRepository,
      (verify_predictions (some youngRepo) "EURUSD" 2 24 1).1 = some repo' ∧
      youngPrediction ∈ repo'.predictions ∧
      youngPrediction.isVerified = false ∧
      ∀ q ∈ repo'.predictions, q.id = youngPrediction.id →
        q = youngPrediction :=
  verify_predictions_skips_young youngRepo "EURUSD" 2 24 1 youngPrediction
    (by simp [youngRepo]) rfl (by simp [youngRepo])
    (by show (1 : ℚ) - 0 < get_verification_window "H1"
        rw [show get_verification_window "H1" = 4 from rfl]
        norm_num)

/-- **C5**: whenever at least one full day has elapsed since the last
training of the active model — or no training time is known at all —
`should_retrain` answers `true` and lists a time-based reason, regardless of
the accuracy statistics. -/
theorem should_retrain_time_based (repository : Option DatabaseRepository)
    (dir : ModelsDir) (now minConfidence : ℚ)
    (h : ∀ t, get_last_training_time dir = some t → 1 ≤ ⌊(now - t) / 24⌋) :
    (should_retrain repository dir now minConfidence).shouldRetrain = true ∧
    ∃ d : ℤ, 1 ≤ d ∧
      RetrainReason.lastTrainingDaysAgo d ∈
        (should_retrain repository dir now minConfidence).reasons := by
  unfold should_retrain
  cases hlt : get_last_training_time dir with
  | none =>
    dsimp only
    rw [if_pos (by norm_num : (999 : ℤ) ≥ 1)]
    constructor
    · cases hb : (needs_retraining repository now minConfidence 100
          7).needsRetraining <;> rfl
    · exact ⟨999, by norm_num, by simp⟩
  | some t =>
    dsimp only
    rw [if_pos (ge_iff_le.mpr (h t hlt))]
    constructor
    · cases hb : (needs_retraining repository now minConfidence 100
          7).needsRetraining <;> rfl
    · exact ⟨⌊(now - t) / 24⌋, h t hlt, by simp⟩

/-- A `models/` directory whose newest (only) version records a training
timestamp two days before the reference time `48` used in the witness. -/
def dirTrainedTwoDaysAgo : ModelsDir :=
  { modelVersions := ["v1"], scalerVersions := ["v1"],
    metadataVersions := ["v1"], trainingDate := [("v1", 0)],
    metaTestAccuracy := [], mtime := [],
    modelBlob := fun _ => trivialModel, scalerBlob := fun _ => trivialScaler }

/-- Witness for **C5** (spec scenario D): last training two days ago —
`should_retrain = true` with a time-based reason present. -/
theorem should_retrain_time_based_witness :
    (should_retrain none dirTrainedTwoDaysAgo 48 (7/10)).shouldRetrain
        = true ∧
    ∃ d : ℤ, 1 ≤ d ∧
      RetrainReason.lastTrainingDaysAgo d ∈
        (should_retrain none dirTrainedTwoDaysAgo 48 (7/10)).reasons := by
  refine should_retrain_time_based none dirTrainedTwoDaysAgo 48 (7/10) ?_
  intro t ht
  have h0 : get_last_training_time dirTrainedTwoDaysAgo = some (0 : ℚ) := rfl
  rw [h0] at ht
  rw [← Option.some.inj ht]
  norm_num

/-- A `models/` directory holding the model blob and the scaler blob of
version `v1`, but no metadata sidecar. -/
def partialArtifactsDir : ModelsDir :=
  { modelVersions := ["v1"], scalerVersions := ["v1"], metadataVersions := [],
    trainingDate := [], metaTestAccuracy := [], mtime := [],
    modelBlob := fun _ => trivialModel, scalerBlob := fun _ => trivialScaler }

/-- Counterexample to **C7**: a version whose metadata sidecar is missing is
still listed by `list_models` and still loads successfully — `load_model`
checks only the model and scaler blobs. -/
theorem load_model_ignores_metadata_counterexample :
    ("v1" ∉ partialArtifactsDir.metadataVersions) ∧
    (ModelManager.load_model ⟨partialArtifactsDir, none⟩ "v1").2 = true ∧
    ModelManager.list_models partialArtifactsDir = ["v1"] :=
  ⟨by simp [partialArtifactsDir], rfl, rfl⟩

/-- **C7** (amended): a version is treated as loadable exactly when its model
blob and scaler blob both exist — the metadata sidecar is not consulted — and
a failed load returns `false` without changing the manager state (in
particular the active model). -/
theorem load_model_amended (st : ModelManager.State) (version : String) :
    ((ModelManager.load_model st version).2 = true ↔
      (version ∈ st.dir.modelVersions ∧ version ∈ st.dir.scalerVersions)) ∧
    ((ModelManager.load_model st version).2 = false →
      (ModelManager.load_model st version).1 = st) ∧
    ((ModelManager.load_model st version).2 = true →
      (ModelManager.load_model st version).1.active =
        some (st.dir.modelBlob version, st.dir.scalerBlob version)) := by
  unfold ModelManager.load_model
  by_cases h : version ∈ st.dir.modelVersions ∧ version ∈ st.dir.scalerVersions
  · rw [if_pos h]
    exact ⟨⟨fun _ => h, fun _ => rfl⟩, fun hb => Bool.noConfusion hb,
      fun _ => rfl⟩
  · rw [if_neg h]
    exact ⟨⟨fun hb => Bool.noConfusion hb, fun hc => absurd hc h⟩,
      fun _ => rfl, fun hb => Bool.noConfusion hb⟩

/-- Witness for the amended **C7**: loading a version with no artifacts at
all fails softly and leaves the manager state unchanged. -/
theorem load_model_amended_witness :
    (ModelManager.load_model ⟨emptyModelsDir, none⟩ "v1").1 =
      (⟨emptyModelsDir, none⟩ : ModelManager.State) :=
  (load_model_amended ⟨emptyModelsDir, none⟩ "v1").2.1 rfl

/-- Counterexample to **C6**: even with the feed returning data, a healthy
training stack, and a writable history file, `execute_retraining` reports
`success = false` and leaves the history log untouched — the training call
itself raises `TypeError` because continuous_learner.py:109-116 passes
keyword arguments that `ModelManager.train_new_model` does not accept, so no
run of the current code is the "successful run" the claim describes;
independently, a failing history write is swallowed by
`_store_retraining_record` (it neither appends nor reports), so a
persistence failure can never surface as `success == false` either. -/
theorem execute_retraining_claim_counterexample :
    (execute_retraining ⟨.ok (some oneBarFrame), fun _ => .ok ⟨4/5, 4/5⟩,
        true⟩ emptyModelsDir [] 0).1.success = false ∧
    (execute_retraining ⟨.ok (some oneBarFrame), fun _ => .ok ⟨4/5, 4/5⟩,
        true⟩ emptyModelsDir [] 0).1.errMsg =
      some "train_new_model() got an unexpected keyword argument tune_hyperparameters" ∧
    (execute_retraining ⟨.ok (some oneBarFrame), fun _ => .ok ⟨4/5, 4/5⟩,
        true⟩ emptyModelsDir [] 0).2 = [] ∧
    store_retraining_record false [] 0 "v1" (4/5) "automatic" = [] :=
  ⟨rfl, rfl, rfl, rfl⟩

/-- **C6** (amended): `execute_retraining` never raises across its own
boundary and every outcome is a structured result — but in the current code
every call reports `success = false` with an error description and leaves
the retraining-history log unchanged: the training call always raises
`TypeError` (unaccepted keyword arguments), so the success branch never
executes; and persistence failures would in any case be swallowed by
`save_model` / `_store_retraining_record` rather than reported. -/
theorem execute_retraining_amended :
    ∀ (env : RetrainEnv) (dir : ModelsDir) (history : List RetrainRecord)
      (now : ℚ),
      (execute_retraining env dir history now).1.success = false ∧
      (execute_retraining env dir history now).1.errMsg.isSome = true ∧
      (execute_retraining env dir history now).2 = history := by
  intro env dir history now
  cases hf : env.fetch with
  | error e => simp [execute_retraining, hf]
  | ok df? =>
    cases df? with
    | none => simp [execute_retraining, hf]
    | some df =>
      cases hde : df.rows.isEmpty with
      | true => simp [execute_retraining, hf, hde]
      | false => simp [execute_retraining, hf, hde, call_train_new_model]

end CursorSMC
